import Mathlib

/-!
Verification of the Zulip ↔ Matrix bridge
(`zulip/integrations/matrix/matrix_bridge.py`).

The bridge consists of two relay callbacks and a supervisor loop:

* `_matrix_to_zulip` (Matrix → Zulip): renders an inbound Matrix room event
  to text, filters out events recognised as produced by the bridge's own
  bot, and sends the rendered text to the configured Zulip stream/topic.
* `_zulip_to_matrix` (Zulip → Matrix): filters inbound Zulip messages
  (stream type, sender, stream name, topic) and sends a formatted mention
  line to the Matrix room.
* a `__main__` supervisor loop driven by `zulip.RandomExponentialBackoff`.

We embed the callbacks as pure functions from an event (a record of the
dictionary fields the Python code reads) to a list of emitted side effects
plus an optional raised error.  Python dictionary fields whose *absence*
is observable (membership, msgtype, body) are `Option String`; reading an
absent field is a `KeyError`.  The outcome of the one external Zulip send
is a parameter (`SendOutcome`), since it is decided by the environment.
-/

/-- The fields of the Python `config["matrix"]` dict that the relay reads. -/
structure MatrixConfig where
  username : String
  host : String
deriving DecidableEq, Repr

/-- The fields of the Python `config["zulip"]` dict that the relay reads
(`api_key` is only passed through to the client and is omitted). -/
structure ZulipConfig where
  email : String
  site : String
  stream : String
  subject : String
deriving DecidableEq, Repr

/-- An inbound Matrix room event, flattened to the fields
`_matrix_to_zulip` and `get_message_content_from_event` read:
`event['type']`, `event['sender']`, `event['membership']`,
`event['content']['msgtype']`, `event['content']['body']`.
The last three are `Option` because the Python code observes their
absence (`'body' not in event['content']`) or crashes on it (KeyError). -/
structure MatrixEvent where
  type : String
  sender : String
  membership : Option String
  msgtype : Option String
  body : Option String
deriving DecidableEq, Repr

/-- An inbound Zulip message, flattened to the fields `_zulip_to_matrix`
reads: `msg["type"]`, `msg["sender_email"]`, `msg["display_recipient"]`,
`msg["subject"]`, `msg["sender_full_name"]`, `msg["content"]`. -/
structure ZulipMsg where
  type : String
  sender_email : String
  display_recipient : String
  subject : String
  sender_full_name : String
  content : String
deriving DecidableEq, Repr

/-- Errors a relay callback can raise: a Python `KeyError` (absent dict
key), an `UnboundLocalError` (the `content` local never assigned in
`get_message_content_from_event`), or the generic `Exception(msg)` that
`_matrix_to_zulip` raises on a failed send. -/
inductive PyError where
  | keyError : PyError
  | unboundLocal : PyError
  | exception (msg : String) : PyError
deriving DecidableEq, Repr

/-- The dict `_matrix_to_zulip` passes to `zulip_client.send_message`. -/
structure ZulipSend where
  sender : String
  type : String
  «to» : String
  subject : String
  content : String
deriving DecidableEq, Repr

/-- A side effect emitted by a relay callback: a Zulip `send_message` call
or a Matrix `room.send_text` call. -/
inductive Effect where
  | sendZulip (m : ZulipSend) : Effect
  | sendMatrix (text : String) : Effect
deriving DecidableEq, Repr

/-- Environment-chosen outcome of the `zulip_client.send_message` call in
`_matrix_to_zulip`: either the client layer raises `MatrixRequestError`,
or the call returns an ack dict `{'result': result, 'msg': msg}`. -/
inductive SendOutcome where
  | matrixRequestError (msg : String) : SendOutcome
  | ack (result : String) (msg : String) : SendOutcome
deriving DecidableEq, Repr

/-- Number of Zulip sends in an effect list. -/
def countZulipSends (effs : List Effect) : Nat :=
  effs.countP fun e => match e with
    | .sendZulip _ => true
    | .sendMatrix _ => false

/-- Number of Matrix sends in an effect list. -/
def countMatrixSends (effs : List Effect) : Nat :=
  effs.countP fun e => match e with
    | .sendZulip _ => false
    | .sendMatrix _ => true

/-- `zulip_to_matrix_username(full_name, site)` =
`"@**{0}**:{1}".format(full_name, site)`. -/
def zulip_to_matrix_username (full_name : String) (site : String) : String :=
  "@**" ++ full_name ++ "**:" ++ site

/-- `zulip_bot_user = '@%s:matrix.org' % matrix_config['username']`, the
marker `_matrix_to_zulip` compares event senders against. -/
def zulip_bot_user (matrix_config : MatrixConfig) : String :=
  "@" ++ matrix_config.username ++ ":matrix.org"

/-- `get_message_content_from_event(event)`.  Mirrors the Python if/elif
chain; in the `m.room.member` branch with a membership other than
`join`/`leave`, and in the `m.room.message` branch with a msgtype other
than `m.text`/`m.emote`, the local `content` is never assigned and the
final `return content` raises `UnboundLocalError`.  Reading an absent
dict key raises `KeyError`. -/
def get_message_content_from_event (event : MatrixEvent) : Except PyError String :=
  if event.type = "m.room.member" then
    match event.membership with
    | none => .error .keyError
    | some m =>
      if m = "join" then .ok (event.sender ++ " joined")
      else if m = "leave" then .ok (event.sender ++ " quit")
      else .error .unboundLocal
  else if event.type = "m.room.message" then
    match event.msgtype with
    | none => .error .keyError
    | some t =>
      if t = "m.text" ∨ t = "m.emote" then
        match event.body with
        | none => .error .keyError
        | some b => .ok (event.sender ++ ": " ++ b)
      else .error .unboundLocal
  else .ok event.type

/-- The closure `_matrix_to_zulip(room, event)` returned by
`matrix_to_zulip(zulip_client, zulip_config, matrix_config)`.
`zulip_client_email` is `zulip_client.email` (the configured Zulip email).
Returns the list of emitted sends and the error raised, if any:

1. `content = get_message_content_from_event(event)` (before the filter);
2. `not_from_zulip_bot = ('body' not in event['content'] or
   event['sender'] != zulip_bot_user)`;
3. if it holds, one `send_message` is issued; a `MatrixRequestError`
   during the send, or an ack whose `result` is not `'success'`, is
   re-raised as a generic `Exception`. -/
def _matrix_to_zulip (zulip_client_email : String) (zulip_config : ZulipConfig)
    (matrix_config : MatrixConfig) (outcome : SendOutcome) (event : MatrixEvent) :
    List Effect × Option PyError :=
  match get_message_content_from_event event with
  | .error e => ([], some e)
  | .ok content =>
    if event.body = none ∨ event.sender ≠ zulip_bot_user matrix_config then
      let send : ZulipSend :=
        { sender := zulip_client_email
          type := "stream"
          «to» := zulip_config.stream
          subject := zulip_config.subject
          content := content }
      match outcome with
      | .matrixRequestError e => ([.sendZulip send], some (.exception e))
      | .ack result msg =>
        if result ≠ "success" then ([.sendZulip send], some (.exception msg))
        else ([.sendZulip send], none)
    else ([], none)

/-- Model of Python `str.replace` on character lists: scan left to right,
replacing every non-overlapping occurrence of a non-empty `pattern` by
`repl`.  `fuel` bounds the recursion (one unit per character consumed);
with `fuel = s.length` the `0, c :: rest` equation is unreachable. -/
def pyReplaceAux (pattern repl : List Char) : Nat → List Char → List Char
  | _, [] => []
  | 0, s => s
  | fuel + 1, c :: rest =>
    if pattern.isPrefixOf (c :: rest) && !pattern.isEmpty then
      repl ++ pyReplaceAux pattern repl fuel ((c :: rest).drop pattern.length)
    else
      c :: pyReplaceAux pattern repl fuel rest

/-- Python `s.replace(pattern, repl)` for a non-empty `pattern` (the
bridge only ever replaces the non-empty strings `"https://"` and
`"http://"`). -/
def pyReplace (s pattern repl : String) : String :=
  ⟨pyReplaceAux pattern.data repl.data s.data.length s.data⟩

/-- `site_without_http = config["site"].replace("https://", "").replace("http://", "")`,
computed once by `zulip_to_matrix`.  Python `str.replace` replaces every
occurrence. -/
def site_without_http (site : String) : String :=
  pyReplace (pyReplace site "https://" "") "http://" ""

/-- The closure `_zulip_to_matrix(msg)` returned by
`zulip_to_matrix(config, room)`: if the message is a stream message, not
from the bot, in the configured stream and at the configured subject, it
sends `"{mention}: {content}"` to the Matrix room (the `print` of the
same text is a console sink, not a relay send, and is not modelled). -/
def _zulip_to_matrix (config : ZulipConfig) (msg : ZulipMsg) : List Effect :=
  if msg.type = "stream" ∧ msg.sender_email ≠ config.email ∧
      msg.display_recipient = config.stream ∧ msg.subject = config.subject then
    [.sendMatrix (zulip_to_matrix_username msg.sender_full_name
        (site_without_http config.site) ++ ": " ++ msg.content)]
  else []

example : site_without_http "https://example.org" = "example.org" := by decide

example :
    _zulip_to_matrix ⟨"bot@z", "https://host", "mirror", "general"⟩
      ⟨"stream", "alice@z", "mirror", "general", "alice", "hello"⟩ =
      [.sendMatrix "@**alice**:host: hello"] := by decide

/-!
## Claim theorems
-/

/-- C1 (counterexample): the claim "every inbound Matrix room event whose
author is the bridge's own bot identity produces zero sends to Zulip" is
false as stated: a bot-authored `m.room.member` join event has no `body`
content field, so `not_from_zulip_bot` evaluates to true and the event is
forwarded — one Zulip send is issued even though the sender is exactly
`zulip_bot_user`. -/
theorem c1_bot_member_event_is_forwarded :
    (MatrixEvent.sender ⟨"m.room.member", "@zulipbot:matrix.org", some "join", none, none⟩ =
        zulip_bot_user ⟨"zulipbot", "https://matrix.org"⟩) ∧
    countZulipSends
        (_matrix_to_zulip "bot@zulip" ⟨"bot@zulip", "https://matrix.org", "mirror", "general"⟩
          ⟨"zulipbot", "https://matrix.org"⟩ (.ack "success" "")
          ⟨"m.room.member", "@zulipbot:matrix.org", some "join", none, none⟩).1 = 1 := by
  decide

/-- C1 (amended): for every inbound Matrix room event whose sender equals
the bridge's own-identity marker `zulip_bot_user` AND whose content
carries a `body` field — in particular every text message echoed back
after `zulip_to_matrix` posted it — `_matrix_to_zulip` issues zero sends
to Zulip. -/
theorem c1_amended_bot_body_events_produce_no_zulip_send
    (zce : String) (zcfg : ZulipConfig) (mcfg : MatrixConfig)
    (oc : SendOutcome) (ev : MatrixEvent)
    (hsender : ev.sender = zulip_bot_user mcfg) (hbody : ev.body.isSome) :
    countZulipSends (_matrix_to_zulip zce zcfg mcfg oc ev).1 = 0 := by
  cases hval : get_message_content_from_event ev with
  | error e => simp [_matrix_to_zulip, hval, countZulipSends]
  | ok content =>
    have hnot : ¬ (ev.body = none ∨ ev.sender ≠ zulip_bot_user mcfg) := by
      push_neg
      refine ⟨fun h => ?_, hsender⟩
      rw [h] at hbody
      simp at hbody
    simp [_matrix_to_zulip, hval, hnot, countZulipSends]

/-- C1 (witness): the round trip at a concrete input: the text event that
echoes a message `zulip_to_matrix` posted, with the bot's sender
identity, produces no Zulip-side send. -/
theorem c1_amended_round_trip_witness :
    countZulipSends
        (_matrix_to_zulip "bot@zulip" ⟨"bot@zulip", "https://matrix.org", "mirror", "general"⟩
          ⟨"zulipbot", "https://matrix.org"⟩ (.ack "success" "")
          ⟨"m.room.message", "@zulipbot:matrix.org", none, some "m.text",
            some "@**alice**:matrix.org: hello"⟩).1 = 0 :=
  c1_amended_bot_body_events_produce_no_zulip_send "bot@zulip"
    ⟨"bot@zulip", "https://matrix.org", "mirror", "general"⟩
    ⟨"zulipbot", "https://matrix.org"⟩ (.ack "success" "")
    ⟨"m.room.message", "@zulipbot:matrix.org", none, some "m.text",
      some "@**alice**:matrix.org: hello"⟩ (by decide) (by decide)

/-- C2 (counterexample): the claim omits the `msg["type"] == "stream"`
condition that `_zulip_to_matrix` also checks: a message of type
`"private"` whose sender differs from the bot, whose display_recipient
equals the configured stream and whose subject equals the configured
subject produces zero sends, not exactly one. -/
theorem c2_private_type_message_not_relayed :
    (ZulipMsg.sender_email ⟨"private", "alice@zulip", "mirror", "general", "Alice", "hi"⟩ ≠
        ZulipConfig.email ⟨"bot@zulip", "https://example.org", "mirror", "general"⟩) ∧
    (ZulipMsg.display_recipient ⟨"private", "alice@zulip", "mirror", "general", "Alice", "hi"⟩ =
        ZulipConfig.stream ⟨"bot@zulip", "https://example.org", "mirror", "general"⟩) ∧
    (ZulipMsg.subject ⟨"private", "alice@zulip", "mirror", "general", "Alice", "hi"⟩ =
        ZulipConfig.subject ⟨"bot@zulip", "https://example.org", "mirror", "general"⟩) ∧
    _zulip_to_matrix ⟨"bot@zulip", "https://example.org", "mirror", "general"⟩
        ⟨"private", "alice@zulip", "mirror", "general", "Alice", "hi"⟩ = [] := by
  decide

/-- C2 (amended): for every inbound Zulip message of type `"stream"`
whose sender_email differs from the configured email, whose
display_recipient equals the configured stream and whose subject equals
the configured subject, `_zulip_to_matrix` issues exactly one Matrix
send, with text `"{mention}: {content}"` where the mention is
`"@**{sender_full_name}**:{site}"` and site is the configured site with
every occurrence of `"https://"` and `"http://"` removed. -/
theorem c2_amended_stream_messages_relayed_once
    (cfg : ZulipConfig) (msg : ZulipMsg)
    (htype : msg.type = "stream") (hsender : msg.sender_email ≠ cfg.email)
    (hrecip : msg.display_recipient = cfg.stream) (hsubj : msg.subject = cfg.subject) :
    _zulip_to_matrix cfg msg =
      [.sendMatrix (zulip_to_matrix_username msg.sender_full_name
          (site_without_http cfg.site) ++ ": " ++ msg.content)] := by
  unfold _zulip_to_matrix
  rw [if_pos ⟨htype, hsender, hrecip, hsubj⟩]

/-- C2 (witness): the spec's end-to-end scenario: alice posts "hello" in
stream "mirror", topic "general", with site `https://host`; the Matrix
room receives exactly `"@**alice**:host: hello"`. -/
theorem c2_amended_scenario_witness :
    _zulip_to_matrix ⟨"bot@zulip", "https://host", "mirror", "general"⟩
        ⟨"stream", "alice@zulip", "mirror", "general", "alice", "hello"⟩ =
      [.sendMatrix "@**alice**:host: hello"] := by
  have h := c2_amended_stream_messages_relayed_once
    ⟨"bot@zulip", "https://host", "mirror", "general"⟩
    ⟨"stream", "alice@zulip", "mirror", "general", "alice", "hello"⟩
    rfl (by decide) rfl rfl
  rw [h]
  decide

/-- C3: for every inbound Zulip message where the sender equals the
bridge's configured email, or the display_recipient differs from the
configured stream, or the subject differs from the configured subject,
`_zulip_to_matrix` issues zero sends to Matrix. -/
theorem c3_filtered_zulip_messages_produce_no_matrix_send
    (cfg : ZulipConfig) (msg : ZulipMsg)
    (h : msg.sender_email = cfg.email ∨ msg.display_recipient ≠ cfg.stream ∨
      msg.subject ≠ cfg.subject) :
    _zulip_to_matrix cfg msg = [] := by
  unfold _zulip_to_matrix
  rw [if_neg]
  rintro ⟨-, hne, hrec, hsub⟩
  rcases h with h | h | h
  · exact hne h
  · exact h hrec
  · exact h hsub

/-- C3 (witness): a message from the bot's own email, in the configured
stream and subject, is not relayed back to Matrix. -/
theorem c3_witness :
    _zulip_to_matrix ⟨"bot@zulip", "https://host", "mirror", "general"⟩
        ⟨"stream", "bot@zulip", "mirror", "general", "mirror bot", "echo"⟩ = [] :=
  c3_filtered_zulip_messages_produce_no_matrix_send
    ⟨"bot@zulip", "https://host", "mirror", "general"⟩
    ⟨"stream", "bot@zulip", "mirror", "general", "mirror bot", "echo"⟩
    (Or.inl rfl)

/-- Helper: `_matrix_to_zulip` only ever calls `zulip_client.send_message`;
no branch of it emits a Matrix-side send. -/
theorem matrix_to_zulip_emits_no_matrix_sends
    (zce : String) (zcfg : ZulipConfig) (mcfg : MatrixConfig)
    (oc : SendOutcome) (ev : MatrixEvent) :
    countMatrixSends (_matrix_to_zulip zce zcfg mcfg oc ev).1 = 0 := by
  unfold _matrix_to_zulip
  cases get_message_content_from_event ev with
  | error e => simp [countMatrixSends]
  | ok content =>
    dsimp only
    split
    · cases oc with
      | matrixRequestError e => simp [countMatrixSends]
      | ack r m =>
        dsimp only
        split <;> simp [countMatrixSends]
    · simp [countMatrixSends]

/-- C4: for every inbound Matrix event of type `m.room.message` with
msgtype `m.text` or `m.emote`, carrying body `b`, whose sender is not the
bridge's own-identity marker `zulip_bot_user`, `_matrix_to_zulip` issues
exactly one Zulip send, a stream message to the configured stream and
subject with content `"{sender}: {body}"` — whatever the outcome of the
send itself. -/
theorem c4_matrix_text_events_relayed_once
    (zce : String) (zcfg : ZulipConfig) (mcfg : MatrixConfig) (oc : SendOutcome)
    (ev : MatrixEvent) (b : String)
    (htype : ev.type = "m.room.message")
    (hmsg : ev.msgtype = some "m.text" ∨ ev.msgtype = some "m.emote")
    (hbody : ev.body = some b)
    (hsender : ev.sender ≠ zulip_bot_user mcfg) :
    (_matrix_to_zulip zce zcfg mcfg oc ev).1 =
      [.sendZulip ⟨zce, "stream", zcfg.stream, zcfg.subject, ev.sender ++ ": " ++ b⟩] := by
  have h1 : ev.type ≠ "m.room.member" := by rw [htype]; decide
  have hcontent : get_message_content_from_event ev = .ok (ev.sender ++ ": " ++ b) := by
    unfold get_message_content_from_event
    rw [if_neg h1, if_pos htype]
    rcases hmsg with h | h <;>
      · rw [h]
        dsimp only
        rw [if_pos (by simp), hbody]
  simp only [_matrix_to_zulip, hcontent]
  rw [if_pos (Or.inr hsender)]
  cases oc with
  | matrixRequestError e => rfl
  | ack r m =>
    dsimp only
    split <;> rfl

/-- C4 (witness): the spec's end-to-end scenario: bob posts "hi" in the
Matrix room; the Zulip stream receives one stream message with content
`"bob: hi"` (here bob's full Matrix id as sender). -/
theorem c4_witness :
    (_matrix_to_zulip "bot@zulip" ⟨"bot@zulip", "https://matrix.org", "mirror", "general"⟩
        ⟨"zulipbot", "https://matrix.org"⟩ (.ack "success" "")
        ⟨"m.room.message", "@bob:matrix.org", none, some "m.text", some "hi"⟩).1 =
      [.sendZulip ⟨"bot@zulip", "stream", "mirror", "general", "@bob:matrix.org: hi"⟩] :=
  c4_matrix_text_events_relayed_once "bot@zulip"
    ⟨"bot@zulip", "https://matrix.org", "mirror", "general"⟩
    ⟨"zulipbot", "https://matrix.org"⟩ (.ack "success" "")
    ⟨"m.room.message", "@bob:matrix.org", none, some "m.text", some "hi"⟩ "hi"
    rfl (Or.inl rfl) rfl (by decide)

/-- C5: for every Matrix membership event (type `m.room.member`), a
membership of `"join"` renders the Zulip-side content exactly
`"{sender} joined"` and a membership of `"leave"` renders exactly
`"{sender} quit"`; and the Matrix→Zulip callback never sends anything
back to the Matrix room. -/
theorem c5_membership_content_and_no_matrix_send
    (zce : String) (zcfg : ZulipConfig) (mcfg : MatrixConfig) (oc : SendOutcome)
    (ev : MatrixEvent) (htype : ev.type = "m.room.member") :
    (ev.membership = some "join" →
        get_message_content_from_event ev = .ok (ev.sender ++ " joined")) ∧
    (ev.membership = some "leave" →
        get_message_content_from_event ev = .ok (ev.sender ++ " quit")) ∧
    countMatrixSends (_matrix_to_zulip zce zcfg mcfg oc ev).1 = 0 := by
  refine ⟨fun hm => ?_, fun hm => ?_, matrix_to_zulip_emits_no_matrix_sends zce zcfg mcfg oc ev⟩
  · unfold get_message_content_from_event
    rw [if_pos htype, hm]
    dsimp only
    rw [if_pos rfl]
  · unfold get_message_content_from_event
    rw [if_pos htype, hm]
    dsimp only
    rw [if_neg (by decide), if_pos rfl]

/-- C5 (witness): at a concrete join event the rendered content is
`"@bob:matrix.org joined"` and no Matrix send is emitted. -/
theorem c5_witness :
    get_message_content_from_event ⟨"m.room.member", "@bob:matrix.org", some "join", none, none⟩ =
        .ok "@bob:matrix.org joined" ∧
    countMatrixSends
        (_matrix_to_zulip "bot@zulip" ⟨"bot@zulip", "https://matrix.org", "mirror", "general"⟩
          ⟨"zulipbot", "https://matrix.org"⟩ (.ack "success" "")
          ⟨"m.room.member", "@bob:matrix.org", some "join", none, none⟩).1 = 0 := by
  have h := c5_membership_content_and_no_matrix_send "bot@zulip"
    ⟨"bot@zulip", "https://matrix.org", "mirror", "general"⟩
    ⟨"zulipbot", "https://matrix.org"⟩ (.ack "success" "")
    ⟨"m.room.member", "@bob:matrix.org", some "join", none, none⟩ rfl
  exact ⟨h.1 rfl, h.2.2⟩

/-- The send outcomes claim C6 is about: the client layer raises
`MatrixRequestError`, or the ack's `result` is not `'success'`. -/
def isSendFailure : SendOutcome → Prop
  | .matrixRequestError _ => True
  | .ack result _ => result ≠ "success"

/-- C6: when the Zulip send is attempted (content rendered, filter
passed) and the outcome is a failure — a `MatrixRequestError` from the
client layer, or an ack whose result is not `'success'` — the callback
raises a single generic `Exception` in both cases, and exactly one send
was issued for the triggering message (it is dropped, not retried). -/
theorem c6_send_failures_raise_one_generic_exception
    (zce : String) (zcfg : ZulipConfig) (mcfg : MatrixConfig) (oc : SendOutcome)
    (ev : MatrixEvent) (content : String)
    (hcontent : get_message_content_from_event ev = .ok content)
    (hfilter : ev.body = none ∨ ev.sender ≠ zulip_bot_user mcfg)
    (hfail : isSendFailure oc) :
    ∃ m, _matrix_to_zulip zce zcfg mcfg oc ev =
      ([.sendZulip ⟨zce, "stream", zcfg.stream, zcfg.subject, content⟩],
        some (.exception m)) := by
  simp only [_matrix_to_zulip, hcontent]
  rw [if_pos hfilter]
  cases oc with
  | matrixRequestError e => exact ⟨e, rfl⟩
  | ack r m =>
    refine ⟨m, ?_⟩
    have hr : r ≠ "success" := hfail
    dsimp only
    rw [if_pos hr]

/-- C6 (witness): a rejected ack (`result = "error"`, e.g. an invalid API
key) at a concrete human-authored message: one send was issued and a
generic `Exception` carrying the ack's msg is raised. -/
theorem c6_witness :
    ∃ m, _matrix_to_zulip "bot@zulip" ⟨"bot@zulip", "https://matrix.org", "mirror", "general"⟩
        ⟨"zulipbot", "https://matrix.org"⟩ (.ack "error" "Invalid API key")
        ⟨"m.room.message", "@bob:matrix.org", none, some "m.text", some "hi"⟩ =
      ([.sendZulip ⟨"bot@zulip", "stream", "mirror", "general", "@bob:matrix.org: hi"⟩],
        some (.exception m)) :=
  c6_send_failures_raise_one_generic_exception "bot@zulip"
    ⟨"bot@zulip", "https://matrix.org", "mirror", "general"⟩
    ⟨"zulipbot", "https://matrix.org"⟩ (.ack "error" "Invalid API key")
    ⟨"m.room.message", "@bob:matrix.org", none, some "m.text", some "hi"⟩
    "@bob:matrix.org: hi" rfl (Or.inr (by decide))
    (show ("error" : String) ≠ "success" by decide)

/-- Modelled from the spec: `zulip.RandomExponentialBackoff` comes from
the `zulip` package, whose source is not under `src/`; only its use site
(`backoff = zulip.RandomExponentialBackoff(timeout_success_equivalent=300)`,
`while backoff.keep_going(): ... backoff.fail()`) is.  Per §4.3 the
policy is randomized exponential backoff, "unbounded in attempt count
(the loop runs forever until the process receives a termination
signal)", so `keep_going` is true in every state; `fail` records one
more failed attempt (the randomized delay it sleeps for is not
modelled). -/
structure RandomExponentialBackoff where
  number_of_retries : Nat
deriving DecidableEq, Repr

/-- Modelled from the spec: the loop guard — always true, the retry loop
never gives up on its own. -/
def RandomExponentialBackoff.keep_going (_ : RandomExponentialBackoff) : Bool :=
  true

/-- Modelled from the spec: `backoff.fail()` — sleep the randomized
exponential delay and record the failed attempt. -/
def RandomExponentialBackoff.fail (b : RandomExponentialBackoff) : RandomExponentialBackoff :=
  { number_of_retries := b.number_of_retries + 1 }

/-- The backoff state of the `__main__` supervisor loop after `n`
consecutive failed CONNECTED attempts (each loop iteration ends in
`backoff.fail()`). -/
def supervisorBackoffAfter : Nat → RandomExponentialBackoff
  | 0 => { number_of_retries := 0 }
  | n + 1 => (supervisorBackoffAfter n).fail

/-- C7: the supervisor retry loop is unbounded in attempt count: after
any finite number `n` of failed CONNECTED attempts, `keep_going` still
holds, so the loop performs the backoff delay and retries again — it
never stops retrying on its own. -/
theorem c7_supervisor_retries_forever (n : Nat) :
    (supervisorBackoffAfter n).keep_going = true ∧
    (supervisorBackoffAfter n).number_of_retries = n := by
  induction n with
  | zero => exact ⟨rfl, rfl⟩
  | succ n ih =>
    exact ⟨rfl, by simp [supervisorBackoffAfter, RandomExponentialBackoff.fail, ih.2]⟩

/-- C8: the own-identity marker of the Matrix→Zulip filter is the string
`"@{username}:matrix.org"`, built from the configured Matrix username
with the homeserver part fixed to `matrix.org` — the configured host
plays no role; consequently, on a homeserver other than matrix.org, a
bot-authored message event carrying a `body` field (sender
`@zulipbot:example.org`, the bot's true identity for host
`https://example.org`) fails the sender-equality check and is forwarded
to Zulip: one send is issued. -/
theorem c8_bot_marker_hardcodes_matrix_org :
    (∀ username host : String,
        zulip_bot_user ⟨username, host⟩ = "@" ++ username ++ ":matrix.org") ∧
    (∀ username host host2 : String,
        zulip_bot_user ⟨username, host⟩ = zulip_bot_user ⟨username, host2⟩) ∧
    countZulipSends
        (_matrix_to_zulip "bot@zulip" ⟨"bot@zulip", "https://example.org", "mirror", "general"⟩
          ⟨"zulipbot", "https://example.org"⟩ (.ack "success" "")
          ⟨"m.room.message", "@zulipbot:example.org", none, some "m.text",
            some "@**alice**:example.org: hello"⟩).1 = 1 :=
  ⟨fun _ _ => rfl, fun _ _ _ => rfl, by decide⟩

/-- C9 (counterexample): the claim "for all other event shapes it returns
a string" is false: an `m.room.message` event with msgtype `m.text` but
no `body` content field is not one of the two unassigned-`content` cases,
yet the function raises a `KeyError` (reading `event['content']['body']`)
instead of returning a string. -/
theorem c9_text_event_without_body_raises_key_error :
    get_message_content_from_event
        ⟨"m.room.message", "@alice:matrix.org", none, some "m.text", none⟩ =
      .error .keyError :=
  rfl

/-- C9 (amended): `get_message_content_from_event` is partial.  For a
member event carrying a membership outside {join, leave}, and for a
message event carrying a msgtype outside {m.text, m.emote}, the local
`content` is never assigned and an uninitialized-variable
(UnboundLocalError) is raised.  For the remaining shapes it returns a
string — provided every dict field it reads is present (membership;
msgtype, and body for m.text/m.emote messages); when such a field is
absent it raises a KeyError instead of returning. -/
theorem c9_amended_content_rendering_cases (ev : MatrixEvent) :
    (∀ m, ev.type = "m.room.member" → ev.membership = some m → m ≠ "join" → m ≠ "leave" →
      get_message_content_from_event ev = .error .unboundLocal) ∧
    (∀ t, ev.type = "m.room.message" → ev.msgtype = some t → t ≠ "m.text" → t ≠ "m.emote" →
      get_message_content_from_event ev = .error .unboundLocal) ∧
    (ev.type = "m.room.member" → ev.membership = some "join" →
      get_message_content_from_event ev = .ok (ev.sender ++ " joined")) ∧
    (ev.type = "m.room.member" → ev.membership = some "leave" →
      get_message_content_from_event ev = .ok (ev.sender ++ " quit")) ∧
    (∀ t b, ev.type = "m.room.message" → ev.msgtype = some t →
      (t = "m.text" ∨ t = "m.emote") → ev.body = some b →
      get_message_content_from_event ev = .ok (ev.sender ++ ": " ++ b)) ∧
    (ev.type ≠ "m.room.member" → ev.type ≠ "m.room.message" →
      get_message_content_from_event ev = .ok ev.type) ∧
    (ev.type = "m.room.member" → ev.membership = none →
      get_message_content_from_event ev = .error .keyError) ∧
    (ev.type = "m.room.message" → ev.msgtype = none →
      get_message_content_from_event ev = .error .keyError) ∧
    (∀ t, ev.type = "m.room.message" → ev.msgtype = some t →
      (t = "m.text" ∨ t = "m.emote") → ev.body = none →
      get_message_content_from_event ev = .error .keyError) := by
  have hmsgr : ev.type = "m.room.message" → ev.type ≠ "m.room.member" := by
    intro h
    rw [h]
    decide
  refine ⟨?_, ?_, ?_, ?_, ?_, ?_, ?_, ?_, ?_⟩
  · intro m htype hm hj hl
    unfold get_message_content_from_event
    rw [if_pos htype, hm]
    dsimp only
    rw [if_neg hj, if_neg hl]
  · intro t htype ht h1 h2
    unfold get_message_content_from_event
    rw [if_neg (hmsgr htype), if_pos htype, ht]
    dsimp only
    rw [if_neg]
    rintro (h | h)
    · exact h1 h
    · exact h2 h
  · intro htype hm
    unfold get_message_content_from_event
    rw [if_pos htype, hm]
    dsimp only
    rw [if_pos rfl]
  · intro htype hm
    unfold get_message_content_from_event
    rw [if_pos htype, hm]
    dsimp only
    rw [if_neg (by decide), if_pos rfl]
  · intro t b htype ht hor hb
    unfold get_message_content_from_event
    rw [if_neg (hmsgr htype), if_pos htype, ht]
    dsimp only
    rw [if_pos hor, hb]
  · intro h1 h2
    unfold get_message_content_from_event
    rw [if_neg h1, if_neg h2]
  · intro htype hm
    unfold get_message_content_from_event
    rw [if_pos htype, hm]
  · intro htype ht
    unfold get_message_content_from_event
    rw [if_neg (hmsgr htype), if_pos htype, ht]
  · intro t htype ht hor hb
    unfold get_message_content_from_event
    rw [if_neg (hmsgr htype), if_pos htype, ht]
    dsimp only
    rw [if_pos hor, hb]

/-- C9 (witness): a `ban` membership event hits the unassigned-`content`
case and raises the uninitialized-variable error. -/
theorem c9_amended_witness :
    get_message_content_from_event
        ⟨"m.room.member", "@mod:matrix.org", some "ban", none, none⟩ =
      .error .unboundLocal :=
  (c9_amended_content_rendering_cases
      ⟨"m.room.member", "@mod:matrix.org", some "ban", none, none⟩).1
    "ban" rfl rfl (by decide) (by decide)

/-- C10: `_matrix_to_zulip` evaluates `get_message_content_from_event`
before the loop-prevention filter, so whenever content rendering fails,
the error propagates out of the callback with zero sends issued — for
every event, including bot-authored ones the filter would have
suppressed. -/
theorem c10_rendering_error_propagates_before_filter
    (zce : String) (zcfg : ZulipConfig) (mcfg : MatrixConfig) (oc : SendOutcome)
    (ev : MatrixEvent) (e : PyError)
    (herr : get_message_content_from_event ev = .error e) :
    _matrix_to_zulip zce zcfg mcfg oc ev = ([], some e) := by
  simp only [_matrix_to_zulip, herr]

/-- C10 (witness): a bot-authored `m.notice` event — sender equal to the
own-identity marker and a `body` present, so the filter would suppress
it — still propagates the rendering failure out of the callback, with no
send issued. -/
theorem c10_witness :
    _matrix_to_zulip "bot@zulip" ⟨"bot@zulip", "https://matrix.org", "mirror", "general"⟩
        ⟨"zulipbot", "https://matrix.org"⟩ (.ack "success" "")
        ⟨"m.room.message", "@zulipbot:matrix.org", none, some "m.notice", some "x"⟩ =
      ([], some .unboundLocal) :=
  c10_rendering_error_propagates_before_filter "bot@zulip"
    ⟨"bot@zulip", "https://matrix.org", "mirror", "general"⟩
    ⟨"zulipbot", "https://matrix.org"⟩ (.ack "success" "")
    ⟨"m.room.message", "@zulipbot:matrix.org", none, some "m.notice", some "x"⟩
    .unboundLocal rfl
